import Mathlib

/-!
# Verification of the stone-library-bot reservation engine

Shallow embedding of `src/library_bot.py`. The durable store (PostgreSQL
tables `users`, `books`, `bookings`, `waiting_list`) is modelled as lists of
rows; timestamps are seconds since an arbitrary epoch (`Nat`); the wall clock
(`datetime.now()`) and the serial booking id (`RETURNING id`) are explicit
parameters; an outbound Telegram delivery (`bot.send_message`) is modelled by
a boolean parameter saying whether the send succeeded or raised.

SQL conventions carried over: `LOWER(x) = LOWER(y)` becomes comparison of
`sqlLower`; a comparison of a column with a NULL parameter
(`office = $n` where the Python value is `None`) is never true, which the
model captures by typing such parameters `Option String` and comparing with
`some`-injection; Python truthiness tests on nullable text columns
(`if office:`) are false for both `None` and the empty string.
-/

namespace LibraryBot

/-- A row of the `users` table. -/
structure UserRow where
  user_id : Nat
  first_name : String
  last_name : String
  office : Option String
  current_book : Option String
  booking_start : Option Nat
  booking_duration : Option String
  booking_end : Option Nat
  status : String
  rules_accepted : Bool
deriving DecidableEq, Repr

/-- A row of the `books` table. -/
structure BookRow where
  title : String
  author : String
  office : String
  status : String
  shelf : Option Nat
  floor : Option Nat
deriving DecidableEq, Repr

/-- A row of the `bookings` table. -/
structure BookingRow where
  id : Nat
  user_id : Nat
  book_title : String
  office : String
  start_time : Nat
  duration : String
  end_time : Nat
  status : String
deriving DecidableEq, Repr

/-- A row of the `waiting_list` table. -/
structure WaitingEntry where
  user_id : Nat
  book_title : String
  office : String
  added_at : Nat
  notified : Bool
deriving DecidableEq, Repr

/-- The durable store: the four tables of `init_db`. -/
structure DB where
  users : List UserRow
  books : List BookRow
  bookings : List BookingRow
  waiting_list : List WaitingEntry
deriving DecidableEq, Repr

/-- Python truthiness of a nullable text value (`if office:`):
`None` and the empty string are falsy. -/
def truthyStr : Option String → Bool
  | none => false
  | some s => !(s == "")

/-- Number of rows of `bookings` for `uid` whose status is `'active'`. -/
def activeBookingsFor (db : DB) (uid : Nat) : Nat :=
  (db.bookings.filter fun b => b.user_id == uid && b.status == "active").length

/-- Embeds `register_user`: `INSERT ... VALUES ($1,$2,$3,'available') ON CONFLICT
(user_id) DO UPDATE SET first_name = $2, last_name = $3`. A fresh row gets the
column defaults (`status 'available'`, NULL booking fields, `rules_accepted
FALSE`); on conflict only the two name columns change. -/
def register_user (db : DB) (uid : Nat) (fn ln : String) : DB :=
  if db.users.any (fun u => u.user_id == uid) then
    { db with users := db.users.map fun u =>
        if u.user_id == uid then { u with first_name := fn, last_name := ln } else u }
  else
    { db with users := db.users ++
        [{ user_id := uid, first_name := fn, last_name := ln, office := none,
           current_book := none, booking_start := none, booking_duration := none,
           booking_end := none, status := "available", rules_accepted := false }] }

/-- Embeds `get_user_info`: `SELECT ... FROM users WHERE user_id = $1` (the model
returns the whole row; the source projects five columns from it). -/
def get_user_info (db : DB) (uid : Nat) : Option UserRow :=
  db.users.find? fun u => u.user_id == uid

/-- Embeds `get_user_booking`: `SELECT current_book, booking_start, booking_duration,
booking_end FROM users WHERE user_id = $1 AND status = 'booked'`. -/
def get_user_booking (db : DB) (uid : Nat) : Option UserRow :=
  db.users.find? fun u => u.user_id == uid && u.status == "booked"

/-- SQL `LOWER` as used in the `LOWER(title) = LOWER($1)` comparisons:
character-wise ASCII case folding (the same fold Lean's own string lowering
performs, written structurally so that concrete instances reduce). -/
def lowerChar (c : Char) : Char :=
  if 65 ≤ c.toNat ∧ c.toNat ≤ 90 then Char.ofNat (c.toNat + 32) else c

/-- Folds `lowerChar` over a string: the model of SQL `LOWER`. -/
def sqlLower (s : String) : String := ⟨s.data.map lowerChar⟩

/-- Embeds `book_exists_in_office`: `SELECT ... FROM books WHERE LOWER(title) =
LOWER($1) AND office = $2`. -/
def book_exists_in_office (db : DB) (title office : String) : Option BookRow :=
  db.books.find? fun b => sqlLower b.title == sqlLower title && b.office == office

/-- Embeds `update_book_status`: `UPDATE books SET status = $1 WHERE LOWER(title) =
LOWER($2) AND office = $3`. The `office` argument is `Option`-typed because the
call sites can pass a NULL user office, and `office = NULL` matches no row. -/
def update_book_status (db : DB) (title : String) (office : Option String)
    (status : String) : DB :=
  { db with books := db.books.map fun b =>
      if sqlLower b.title == sqlLower title && office == some b.office then
        { b with status := status } else b }

/-- Embeds `remove_from_waiting_list`: `DELETE FROM waiting_list WHERE user_id = $1
AND book_title = $2 AND office = $3`. -/
def remove_from_waiting_list (db : DB) (uid : Nat) (title office : String) : DB :=
  { db with waiting_list := db.waiting_list.filter fun e =>
      !(e.user_id == uid && e.book_title == title && e.office == office) }

/-- The duration ladder of `create_booking`'s `if/elif` chain, in seconds:
`"1 час"` → 1 hour, `"1 день"` → 1 day, `"1 неделя"` → 1 week, `"1 месяц"` →
30 days; any other string leaves `end_time` unassigned (a fatal
`UnboundLocalError` at the INSERT), modelled as `none`. -/
def durationOffset (d : String) : Option Nat :=
  if d == "1 час" then some 3600
  else if d == "1 день" then some 86400
  else if d == "1 неделя" then some 604800
  else if d == "1 месяц" then some 2592000
  else none

/-- Embeds `create_booking`: computes `end_time` from the duration ladder, then in
one transaction unconditionally flips the book to `'booked'`, deletes the
caller's waitlist entry, inserts an `'active'` row into `bookings` (serial id
`nextId`), and writes the user's booking columns with status `'booked'`.
Returns `(booking_id, end_time)`. There is no status check anywhere in it. -/
def create_booking (db : DB) (uid : Nat) (title office duration : String)
    (now nextId : Nat) : Option (DB × Nat × Nat) :=
  match durationOffset duration with
  | none => none
  | some off =>
    let endTime := now + off
    let db1 := update_book_status db title (some office) "booked"
    let db2 := remove_from_waiting_list db1 uid title office
    let db3 : DB := { db2 with bookings := db2.bookings ++
        [{ id := nextId, user_id := uid, book_title := title, office := office,
           start_time := now, duration := duration, end_time := endTime,
           status := "active" }] }
    let db4 : DB := { db3 with users := db3.users.map fun u =>
        if u.user_id == uid then
          { u with current_book := some title, booking_start := some now,
                   booking_duration := some duration, booking_end := some endTime,
                   status := "booked" } else u }
    some (db4, nextId, endTime)

/-- Embeds `add_to_waiting_list`: `INSERT INTO waiting_list (user_id, book_title,
office) VALUES ($1,$2,$3) ON CONFLICT (user_id, book_title, office) DO
NOTHING`, returning `True`; the `except` branch returns `False`. A duplicate
key is swallowed by the conflict clause and raises nothing, so only an
infrastructure fault (modelled by the exogenous flag `raised`) reaches the
`except` branch. `now` is the `added_at` column default `CURRENT_TIMESTAMP`. -/
def add_to_waiting_list (db : DB) (uid : Nat) (title office : String)
    (now : Nat) (raised : Bool) : DB × Bool :=
  if raised then (db, false)
  else if db.waiting_list.any (fun e =>
      e.user_id == uid && e.book_title == title && e.office == office) then
    (db, true)
  else
    ({ db with waiting_list := db.waiting_list ++
        [{ user_id := uid, book_title := title, office := office,
           added_at := now, notified := false }] }, true)

/-- Head of `ORDER BY added_at ASC LIMIT 1`: the entry with the least
`added_at` (ties resolved arbitrarily by the database; the model keeps the
later list element, one admissible execution). -/
def minByAddedAt : List WaitingEntry → Option WaitingEntry
  | [] => none
  | e :: es =>
    match minByAddedAt es with
    | none => some e
    | some a => if a.added_at < e.added_at then some a else some e

/-- Embeds `get_first_in_waiting_list`: `SELECT user_id FROM waiting_list WHERE
book_title = $1 AND office = $2 AND NOT notified ORDER BY added_at ASC LIMIT
1` (exact title match, no LOWER). `office` is `Option`-typed: the caller can
hand it a NULL user office, and `office = NULL` matches nothing. -/
def get_first_in_waiting_list (db : DB) (title : String)
    (office : Option String) : Option WaitingEntry :=
  minByAddedAt (db.waiting_list.filter fun e =>
    e.book_title == title && office == some e.office && !e.notified)

/-- Embeds `notify_next_in_waiting_list`: peek the oldest unnotified entry; if
present and its user registered, `bot.send_message` (success modelled by
`deliverOk`); only inside the `try`, after a successful send, `UPDATE
waiting_list SET notified = TRUE WHERE user_id = $1 AND book_title = $2 AND
office = $3` and return `True`; the `except` branch falls to `return False`
with no update. -/
def notify_next_in_waiting_list (db : DB) (title : String)
    (office : Option String) (deliverOk : Bool) : DB × Bool :=
  match get_first_in_waiting_list db title office with
  | none => (db, false)
  | some e =>
    match get_user_info db e.user_id with
    | none => (db, false)
    | some _ =>
      if deliverOk then
        ({ db with waiting_list := db.waiting_list.map fun w =>
            if w.user_id == e.user_id && w.book_title == title &&
               office == some w.office then { w with notified := true } else w },
         true)
      else (db, false)

/-- Embeds `complete_booking`: in one transaction flip the book to `'available'`,
clear the user's booking columns and set status `'available'`, mark
`bookings` rows `WHERE user_id = $1 AND book_title = $2 AND status = 'active'`
as `'completed'`, then `notify_next_in_waiting_list`. -/
def complete_booking (db : DB) (uid : Nat) (title : String)
    (office : Option String) (deliverOk : Bool) : DB :=
  let db1 := update_book_status db title office "available"
  let db2 : DB := { db1 with users := db1.users.map fun u =>
      if u.user_id == uid then
        { u with current_book := none, booking_start := none,
                 booking_duration := none, booking_end := none,
                 status := "available" } else u }
  let db3 : DB := { db2 with bookings := db2.bookings.map fun b =>
      if b.user_id == uid && b.book_title == title && b.status == "active" then
        { b with status := "completed" } else b }
  (notify_next_in_waiting_list db3 title office deliverOk).1

/-- Outcome of `process_start_booking` (which message/keyboard the handler
answers with and which FSM state it sets). -/
inductive StartBookingOutcome where
  | askName
  | rejectActiveBooking (current_book : String)
  | chooseAction
  | chooseOffice
deriving DecidableEq, Repr

/-- Embeds `process_start_booking`: unknown user → ask for the name; else if
`get_user_booking` returned a row with a truthy `current_book` → refuse with
the already-active-booking message; else continue to action choice (office on
file) or office choice. -/
def process_start_booking (db : DB) (uid : Nat) : StartBookingOutcome :=
  match get_user_info db uid with
  | none => .askName
  | some u =>
    match get_user_booking db uid with
    | some row =>
      if truthyStr row.current_book then
        .rejectActiveBooking (row.current_book.getD "")
      else if truthyStr u.office then .chooseAction else .chooseOffice
    | none => if truthyStr u.office then .chooseAction else .chooseOffice

/-- Outcome of `process_waitlist_book` (handler of the
`waitlist_book_{title}_{office}` callback). -/
inductive WaitlistBookOutcome where
  | userNotFound
  | bookNoLongerAvailable
  | proceedToConfirmation (title author : String)
deriving DecidableEq, Repr

/-- Embeds `process_waitlist_book`, after the `split("_")` decoding of the callback
token into `book_title` and `office`: unknown user → error; book absent or
its status not `'available'` → "no longer available"; otherwise straight to
the confirmation prompt. It never consults `get_user_booking`. -/
def process_waitlist_book (db : DB) (uid : Nat) (title office : String) :
    WaitlistBookOutcome :=
  match get_user_info db uid with
  | none => .userNotFound
  | some _ =>
    match book_exists_in_office db title office with
    | none => .bookNoLongerAvailable
    | some b =>
      if b.status != "available" then .bookNoLongerAvailable
      else .proceedToConfirmation title b.author

/-- Embeds the `duration_map` of `process_duration`: decodes the callback token of the
duration keyboard; any other token is answered "Неверный выбор длительности"
(`none`) before `create_booking` is reached. -/
def duration_map (cb : String) : Option String :=
  if cb == "duration_1h" then some "1 час"
  else if cb == "duration_1d" then some "1 день"
  else if cb == "duration_1w" then some "1 неделя"
  else if cb == "duration_1m" then some "1 месяц"
  else none

/-- Outcome of the return flow. -/
inductive ReturnOutcome where
  | userNotFound
  | noActiveReservation
  | completed
deriving DecidableEq, Repr

/-- The return flow: `process_return_book` guards — unknown user → error; `if
not booking_info or booking_info['current_book'] != book_title` → "У вас нет
активного бронирования этой книги" with no store mutation — and only past the
guard does `process_return_photo` run `complete_booking(user, book_title,
office)` with the title and the user's office carried through the FSM data. -/
def process_return_flow (db : DB) (uid : Nat) (title : String)
    (deliverOk : Bool) : DB × ReturnOutcome :=
  match get_user_info db uid with
  | none => (db, .userNotFound)
  | some u =>
    match get_user_booking db uid with
    | none => (db, .noActiveReservation)
    | some row =>
      if row.current_book == some title then
        (complete_booking db uid title u.office deliverOk, .completed)
      else (db, .noActiveReservation)

/-- Process-local reminder bookkeeping of `check_reminders`: the
`setattr(check_reminders, f"last_reminder_{user_id}_{book_title}", t)`
attributes, as a map from `(user_id, book_title)` to the last overdue-send
time. `setattr` overwrites, modelled by consing; `getattr` reads the newest
binding. -/
abbrev RemMap : Type := List ((Nat × String) × Nat)

/-- Embeds `getattr(check_reminders, key, None)`. -/
def remLookup (m : RemMap) (k : Nat × String) : Option Nat :=
  match List.find? (fun p => p.1 == k) m with
  | some p => some p.2
  | none => none

/-- Embeds `setattr(check_reminders, key, now)`. -/
def remSet (m : RemMap) (k : Nat × String) (v : Nat) : RemMap :=
  ((k, v)) :: m

/-- The `current_time >= booking_end` branch of a sweep (shared by all
tiers): send the overdue message when no last-reminder is recorded for
`(uid, book)` or at least 2 hours passed since it; `setattr` runs only after
a successful send (an exception in `bot.send_message` skips it). Returns the
new bookkeeping and whether the message was sent. -/
def overdueStep (st : RemMap) (uid : Nat) (book : String)
    (bookingEnd now : Nat) (deliverOk : Bool) : RemMap × Bool :=
  if bookingEnd ≤ now then
    let due :=
      match remLookup st (uid, book) with
      | none => true
      | some last => 7200 ≤ now - last
    if due then
      if deliverOk then (remSet st (uid, book) now, true) else (st, false)
    else (st, false)
  else (st, false)

/-- The `"1 час"` pre-expiry branch of a sweep: send "через 15 минут" exactly
when `booking_end - 15min ≤ now < booking_end`; no bookkeeping is read or
written for it. -/
def hourPreExpiryFires (bookingEnd now : Nat) : Bool :=
  bookingEnd - 900 ≤ now && now < bookingEnd

/-- One sweep of `check_reminders` over a `"1 час"` reservation of `(uid,
book)` ending at `bookingEnd`, at tick `now`: the pre-expiry check (which
consults no state) followed by the overdue cooldown check. Returns (new
bookkeeping, pre-expiry sent, overdue sent). -/
def hourSweepUser (st : RemMap) (uid : Nat) (book : String)
    (bookingEnd now : Nat) (deliverOk : Bool) : RemMap × Bool × Bool :=
  let pre := hourPreExpiryFires bookingEnd now && deliverOk
  let r := overdueStep st uid book bookingEnd now deliverOk
  (r.1, pre, r.2)

/-! ## Concrete fixtures for witnesses and counterexamples -/

/-- A registered user of the `Stone Towers` office with no booking. -/
def anaRow : UserRow :=
  { user_id := 1, first_name := "Ana", last_name := "Petrova",
    office := some "Stone Towers", current_book := none, booking_start := none,
    booking_duration := none, booking_end := none, status := "available",
    rules_accepted := true }

/-- A store in which `книга а` is currently `'booked'` (say, claimed by a
concurrent session) while user 1 holds nothing. -/
def raceDb : DB :=
  { users := [anaRow],
    books := [{ title := "книга а", author := "автор А", office := "Stone Towers",
                status := "booked", shelf := some 1, floor := some 5 }],
    bookings := [], waiting_list := [] }

/-- A registered user of `Известия` who currently holds `книга x`. -/
def ivanRow : UserRow :=
  { user_id := 2, first_name := "Ivan", last_name := "Orlov",
    office := some "Известия", current_book := some "книга x",
    booking_start := some 1000, booking_duration := some "1 день",
    booking_end := some 87400, status := "booked", rules_accepted := true }

/-- A store in which user 2 holds an active reservation of `книга x`, was
earlier notified from the waitlist of `книга z`, and `книга z` is now
`'available'`. -/
def claimDb : DB :=
  { users := [ivanRow],
    books := [{ title := "книга x", author := "автор Х", office := "Известия",
                status := "booked", shelf := none, floor := none },
              { title := "книга z", author := "автор Z", office := "Известия",
                status := "available", shelf := none, floor := none }],
    bookings := [{ id := 3, user_id := 2, book_title := "книга x",
                   office := "Известия", start_time := 1000,
                   duration := "1 день", end_time := 87400, status := "active" }],
    waiting_list := [{ user_id := 2, book_title := "книга z",
                       office := "Известия", added_at := 1500, notified := true }] }

/-- A store whose waitlist already carries the entry (1, `книга d`,
`Manhatten`). -/
def dupDb : DB :=
  { users := [anaRow], books := [], bookings := [],
    waiting_list := [{ user_id := 1, book_title := "книга d",
                       office := "Manhatten", added_at := 50,
                       notified := false }] }

/-- The implicit invariant of the `users` table: the row is `'booked'`
exactly when `current_book` is set, and the `booking_start`/`booking_end`
columns are set exactly in that same case. -/
def userConsistent (u : UserRow) : Prop :=
  (u.status = "booked" ↔ u.current_book.isSome = true) ∧
  (u.status = "booked" ↔ u.booking_start.isSome = true) ∧
  (u.status = "booked" ↔ u.booking_end.isSome = true)

instance (u : UserRow) : Decidable (userConsistent u) := by
  unfold userConsistent
  infer_instance

/-- A store in which Ana (user 1) holds `книга а`, for the C3 witness. -/
def returnDb : DB :=
  { users := [{ anaRow with
      current_book := some "книга а", booking_start := some 0,
      booking_duration := some "1 час", booking_end := some 3600,
      status := "booked" }],
    books := [{ title := "книга а", author := "автор А",
                office := "Stone Towers", status := "booked", shelf := some 1,
                floor := some 5 }],
    bookings := [{ id := 1, user_id := 1, book_title := "книга а",
                   office := "Stone Towers", start_time := 0,
                   duration := "1 час", end_time := 3600,
                   status := "active" }],
    waiting_list := [] }

/-! ## C1: no availability re-check inside `create_booking` -/

/-- C1 counterexample: in `raceDb` the resource `книга а` is currently
`'booked'`, yet `create_booking` does not fail with any `ResourceUnavailable`
error — it succeeds outright. The re-check claimed by the spec does not
exist. -/
theorem create_booking_no_unavailable_error_cex :
    (book_exists_in_office raceDb "книга а" "Stone Towers").map BookRow.status =
      some "booked" ∧
    (create_booking raceDb 1 "книга а" "Stone Towers" "1 час" 0 7).isSome = true := by
  exact ⟨rfl, rfl⟩

/-- C1 (amended): for every recognized duration, `create_booking` succeeds
unconditionally — regardless of the resource's current status — and flips
every matching book to `'booked'`; no status is read and no
`ResourceUnavailable` branch exists in it. -/
theorem create_booking_unconditional_flip (db : DB) (uid : Nat)
    (title office duration : String) (now nextId off : Nat)
    (h : durationOffset duration = some off) :
    ∃ db' : DB, create_booking db uid title office duration now nextId =
        some (db', nextId, now + off) ∧
      ∀ b ∈ db'.books, sqlLower b.title = sqlLower title → b.office = office →
        b.status = "booked" := by
  unfold create_booking
  rw [h]
  refine ⟨_, rfl, ?_⟩
  intro b hb hT hO
  simp only [update_book_status, remove_from_waiting_list] at hb
  rw [List.mem_map] at hb
  obtain ⟨a, _, rfl⟩ := hb
  by_cases hc : sqlLower a.title = sqlLower title ∧ office = a.office
  · simp [hc.1, hc.2]
  · have hcf : (sqlLower a.title == sqlLower title && some office == some a.office)
        = false := by
      by_contra hne
      rw [Bool.not_eq_false] at hne
      simp only [Bool.and_eq_true, beq_iff_eq, Option.some.injEq] at hne
      exact hc ⟨hne.1, hne.2⟩
    rw [hcf] at hT hO
    simp at hT hO
    exact absurd ⟨hT, hO.symm⟩ hc

/-- Witness for C1's amended theorem at the `raceDb` fixture. -/
theorem create_booking_unconditional_flip_witness :
    durationOffset "1 час" = some 3600 ∧
    (∃ db' : DB, create_booking raceDb 1 "книга а" "Stone Towers" "1 час" 0 7 =
        some (db', 7, 0 + 3600) ∧
      ∀ b ∈ db'.books, sqlLower b.title = sqlLower "книга а" →
        b.office = "Stone Towers" → b.status = "booked") :=
  ⟨rfl, create_booking_unconditional_flip raceDb 1 "книга а" "Stone Towers"
    "1 час" 0 7 3600 rfl⟩

/-! ## C4: the 15-minutes-before-end reminder has no once-only tracking -/

/-- C4 counterexample: a `"1 час"` reservation ending at tick 3600; the
sweeps at ticks 2700 and 3000 both fall inside the 15-minute window and the
second sweep re-sends the reminder even though the first already fired it. -/
theorem hour_pre_expiry_refires_cex :
    (hourSweepUser [] 1 "книга а" 3600 2700 true).2.1 = true ∧
    (hourSweepUser (hourSweepUser [] 1 "книга а" 3600 2700 true).1
        1 "книга а" 3600 3000 true).2.1 = true := by
  exact ⟨rfl, rfl⟩

/-- C4 (amended): the pre-expiry reminder of the 1-hour tier fires on every
successful sweep whose tick lies in `[end − 15 min, end)`, whatever the
reminder bookkeeping says — the code keeps no per-checkpoint state for it
(the `last_reminder` attributes guard only the overdue reminder). -/
theorem hour_pre_expiry_no_dedup (st : RemMap) (uid : Nat) (book : String)
    (bookingEnd now : Nat) (h1 : bookingEnd - 900 ≤ now)
    (h2 : now < bookingEnd) :
    (hourSweepUser st uid book bookingEnd now true).2.1 = true := by
  simp [hourSweepUser, hourPreExpiryFires, h1, h2]

/-- Witness for C4's amended theorem: second tick of the counterexample
window. -/
theorem hour_pre_expiry_no_dedup_witness :
    (3600 - 900 ≤ 3000 ∧ 3000 < 3600) ∧
    (hourSweepUser (hourSweepUser [] 1 "книга а" 3600 2700 true).1
        1 "книга а" 3600 3000 true).2.1 = true :=
  ⟨by decide, hour_pre_expiry_no_dedup
    (hourSweepUser [] 1 "книга а" 3600 2700 true).1 1 "книга а" 3600 3000
    (by decide) (by decide)⟩

/-! ## C5: duplicate waitlist enrollment -/

/-- C5 counterexample: enqueueing the already-present key (1, `книга d`,
`Manhatten`) leaves the waitlist unchanged but returns `true`, not the
`false` the claim states. -/
theorem add_to_waiting_list_duplicate_returns_true_cex :
    (add_to_waiting_list dupDb 1 "книга d" "Manhatten" 99 false).1 = dupDb ∧
    (add_to_waiting_list dupDb 1 "книга d" "Manhatten" 99 false).2 = true := by
  exact ⟨rfl, rfl⟩

/-- C5 (amended): when the database raises nothing, enqueueing a key already
on the waitlist is a no-op that returns `true` (the conflict is silently
suppressed; `false` is returned only from the `except` branch on an
infrastructure fault), and enqueueing an absent key appends one entry and
returns `true`. -/
theorem add_to_waiting_list_duplicate_spec (db : DB) (uid : Nat)
    (title office : String) (now : Nat) :
    (db.waiting_list.any (fun e =>
        e.user_id == uid && e.book_title == title && e.office == office) = true →
      add_to_waiting_list db uid title office now false = (db, true)) ∧
    (db.waiting_list.any (fun e =>
        e.user_id == uid && e.book_title == title && e.office == office) = false →
      add_to_waiting_list db uid title office now false =
        ({ db with waiting_list := db.waiting_list ++
            [{ user_id := uid, book_title := title, office := office,
               added_at := now, notified := false }] }, true)) := by
  constructor
  · intro hdup
    simp [add_to_waiting_list, hdup]
  · intro habs
    simp [add_to_waiting_list, habs]

/-- Witness for C5's amended theorem at the `dupDb` fixture. -/
theorem add_to_waiting_list_duplicate_spec_witness :
    dupDb.waiting_list.any (fun e =>
        e.user_id == 1 && e.book_title == "книга d" && e.office == "Manhatten") = true ∧
    add_to_waiting_list dupDb 1 "книга d" "Manhatten" 99 false = (dupDb, true) :=
  ⟨rfl, (add_to_waiting_list_duplicate_spec dupDb 1 "книга d" "Manhatten" 99).1 rfl⟩

/-! ## C2: the waitlist claim flow skips the active-reservation guard -/

/-- C2 counterexample: in `claimDb` user 2 already holds one active
reservation, yet the waitlist-notification claim flow lets them straight
through to confirmation, and completing that flow with `create_booking`
leaves two `'active'` reservations for the same user. -/
theorem waitlist_claim_flow_double_active_cex :
    activeBookingsFor claimDb 2 = 1 ∧
    process_waitlist_book claimDb 2 "книга z" "Известия" =
      .proceedToConfirmation "книга z" "автор Z" ∧
    Option.map (fun p => activeBookingsFor p.1 2)
      (create_booking claimDb 2 "книга z" "Известия" "1 день" 2000 4) =
      some 2 := by
  exact ⟨rfl, rfl, rfl⟩

/-- C2 (amended): only the ordinary booking entry point
(`process_start_booking`) rejects a user who already holds an active
reservation; the waitlist-notification claim flow (`process_waitlist_book`)
checks just the book's availability and will take that same user to
confirmation — and on to `create_booking` — so the at-most-one-active
invariant is not enforced on that path. -/
theorem booking_guard_asymmetry (db : DB) (uid : Nat) (u row : UserRow)
    (t : String) (h1 : get_user_info db uid = some u)
    (h2 : get_user_booking db uid = some row)
    (h3 : row.current_book = some t) (h4 : t ≠ "") :
    process_start_booking db uid = .rejectActiveBooking t ∧
    ∀ title office b, book_exists_in_office db title office = some b →
      b.status = "available" →
      process_waitlist_book db uid title office =
        .proceedToConfirmation title b.author := by
  constructor
  · simp [process_start_booking, h1, h2, h3, truthyStr, h4]
  · intro title office b hb hs
    simp [process_waitlist_book, h1, hb, hs]

/-- Witness for C2's amended theorem at the `claimDb` fixture. -/
theorem booking_guard_asymmetry_witness :
    (get_user_info claimDb 2 = some ivanRow ∧
     get_user_booking claimDb 2 = some ivanRow ∧
     ivanRow.current_book = some "книга x" ∧ "книга x" ≠ "") ∧
    process_start_booking claimDb 2 = .rejectActiveBooking "книга x" :=
  ⟨⟨rfl, rfl, rfl, by decide⟩,
   (booking_guard_asymmetry claimDb 2 ivanRow ivanRow "книга x" rfl rfl rfl
     (by decide)).1⟩

/-! ## C8: the four duration tiers -/

/-- C8: every duration reachable from the machine's own enumerated choices
(the `duration_map` of `process_duration`) is one of the four tiers with its
fixed offset (1 hour, 1 day, 1 week, 30 days), and `create_booking` on such a
duration never takes the unrecognized-duration failure and computes the
expiry as start plus that offset. -/
theorem duration_tiers (cb d : String) (h : duration_map cb = some d)
    (db : DB) (uid : Nat) (title office : String) (now nextId : Nat) :
    ((d = "1 час" ∧ durationOffset d = some 3600) ∨
     (d = "1 день" ∧ durationOffset d = some 86400) ∨
     (d = "1 неделя" ∧ durationOffset d = some 604800) ∨
     (d = "1 месяц" ∧ durationOffset d = some 2592000)) ∧
    Option.map (fun p => p.2.2) (create_booking db uid title office d now nextId) =
      some (now + (durationOffset d).getD 0) := by
  unfold duration_map at h
  split_ifs at h with hc1 hc2 hc3 hc4
  · cases h
    exact ⟨Or.inl ⟨rfl, rfl⟩, by simp [create_booking, durationOffset]⟩
  · cases h
    exact ⟨Or.inr (Or.inl ⟨rfl, rfl⟩), by simp [create_booking, durationOffset]⟩
  · cases h
    exact ⟨Or.inr (Or.inr (Or.inl ⟨rfl, rfl⟩)),
      by simp [create_booking, durationOffset]⟩
  · cases h
    exact ⟨Or.inr (Or.inr (Or.inr ⟨rfl, rfl⟩)),
      by simp [create_booking, durationOffset]⟩

/-- Witness for C8 at the month tier and the `raceDb` fixture. -/
theorem duration_tiers_witness :
    duration_map "duration_1m" = some "1 месяц" ∧
    Option.map (fun p => p.2.2)
      (create_booking raceDb 1 "книга а" "Stone Towers" "1 месяц" 500 9) =
      some (500 + (durationOffset "1 месяц").getD 0) :=
  ⟨rfl, (duration_tiers "duration_1m" "1 месяц" rfl raceDb 1 "книга а"
    "Stone Towers" 500 9).2⟩

/-! ## C9: the 2-hour cooldown of the overdue reminder -/

/-- Anatomy of a successful overdue send: it requires the booking to be past
its end, a successful delivery, either no recorded last reminder for the
`(user, book)` pair or a gap of at least 2 hours, and it records `now` as the
new last-reminder time for the pair. -/
theorem overdueStep_sent (st : RemMap) (uid : Nat) (book : String)
    (bookingEnd now : Nat) (d : Bool)
    (h : (overdueStep st uid book bookingEnd now d).2 = true) :
    bookingEnd ≤ now ∧ d = true ∧
    (overdueStep st uid book bookingEnd now d).1 = remSet st (uid, book) now ∧
    ∀ last, remLookup st (uid, book) = some last → 7200 ≤ now - last := by
  by_cases hbe : bookingEnd ≤ now
  · cases d with
    | false => simp [overdueStep, hbe] at h
    | true =>
      cases hl : remLookup st (uid, book) with
      | none =>
        refine ⟨hbe, rfl, ?_, ?_⟩
        · simp [overdueStep, hbe, hl]
        · intro last hlast
          cases hlast
      | some last =>
        by_cases hgap : 7200 ≤ now - last
        · refine ⟨hbe, rfl, ?_, ?_⟩
          · simp [overdueStep, hbe, hl, hgap]
          · intro l hl2
            cases hl2
            exact hgap
        · simp [overdueStep, hbe, hl, hgap] at h
  · simp [overdueStep, hbe] at h

/-- C9: the overdue reminder for a `(user, book)` pair is sent only when no
last-reminder is recorded for the pair or at least 2 hours have passed since
the recorded one; consequently two sweep ticks less than 2 hours apart never
both send it for the same pair. -/
theorem overdue_cooldown (st : RemMap) (uid : Nat) (book : String)
    (bookingEnd : Nat) :
    (∀ now d last, remLookup st (uid, book) = some last →
        (overdueStep st uid book bookingEnd now d).2 = true →
        7200 ≤ now - last) ∧
    (∀ t1 t2 d1 d2, t1 ≤ t2 → t2 - t1 < 7200 →
        (overdueStep st uid book bookingEnd t1 d1).2 = true →
        (overdueStep (overdueStep st uid book bookingEnd t1 d1).1
            uid book bookingEnd t2 d2).2 = false) := by
  constructor
  · intro now d last hlast hsent
    exact (overdueStep_sent st uid book bookingEnd now d hsent).2.2.2 last hlast
  · intro t1 t2 d1 d2 hle hgap hsent
    obtain ⟨-, -, hst, -⟩ := overdueStep_sent st uid book bookingEnd t1 d1 hsent
    rw [hst]
    have hl : remLookup (remSet st (uid, book) t1) (uid, book) = some t1 := by
      simp [remLookup, remSet, List.find?]
    unfold overdueStep
    rw [hl]
    have hng : ¬(7200 ≤ t2 - t1) := by omega
    by_cases hbe : bookingEnd ≤ t2
    · simp [hbe, hng]
    · simp [hbe]

/-- Witness for C9: a sweep at tick 9000 for a booking ended at tick 3600,
after a sweep at tick 8000 already sent and recorded the overdue reminder,
does not send it again. -/
theorem overdue_cooldown_witness :
    (8000 ≤ 9000 ∧ 9000 - 8000 < 7200 ∧
     (overdueStep [] 5 "книга y" 3600 8000 true).2 = true) ∧
    (overdueStep (overdueStep [] 5 "книга y" 3600 8000 true).1
        5 "книга y" 3600 9000 true).2 = false :=
  ⟨⟨by decide, by decide, rfl⟩,
   (overdue_cooldown [] 5 "книга y" 3600).2 8000 9000 true true (by decide)
     (by decide) rfl⟩

/-! ## C6: FIFO selection from the waitlist -/

/-- A result of `minByAddedAt` is an element of the list. -/
theorem minByAddedAt_mem {l : List WaitingEntry} {e : WaitingEntry}
    (h : minByAddedAt l = some e) : e ∈ l := by
  induction l with
  | nil => cases h
  | cons x xs ih =>
    unfold minByAddedAt at h
    split at h
    · cases h
      exact List.mem_cons_self _ _
    · rename_i a hm
      split_ifs at h with hlt
      · cases h
        exact List.mem_cons_of_mem _ (ih hm)
      · cases h
        exact List.mem_cons_self _ _

/-- A result of `minByAddedAt` has the least `added_at` of the list. -/
theorem minByAddedAt_le {l : List WaitingEntry} {e : WaitingEntry}
    (h : minByAddedAt l = some e) :
    ∀ x ∈ l, e.added_at ≤ x.added_at := by
  induction l generalizing e with
  | nil => cases h
  | cons y ys ih =>
    intro x hx
    unfold minByAddedAt at h
    split at h
    · rename_i hm
      cases h
      have hnil : ys = [] := by
        cases ys with
        | nil => rfl
        | cons z zs =>
          unfold minByAddedAt at hm
          split at hm
          · cases hm
          · split_ifs at hm
      subst hnil
      rcases List.mem_singleton.mp hx with rfl
      exact le_refl _
    · rename_i a hm
      split_ifs at h with hlt
      · cases h
        rcases List.mem_cons.mp hx with rfl | hxs
        · exact le_of_lt hlt
        · exact ih hm _ hxs
      · cases h
        rcases List.mem_cons.mp hx with rfl | hxs
        · exact le_refl _
        · exact le_trans (Nat.le_of_not_lt hlt) (ih hm _ hxs)

/-- If `minByAddedAt` finds nothing, the list is empty. -/
theorem minByAddedAt_eq_none {l : List WaitingEntry}
    (h : minByAddedAt l = none) : l = [] := by
  cases l with
  | nil => rfl
  | cons x xs =>
    unfold minByAddedAt at h
    split at h
    · cases h
    · split_ifs at h

/-- C6: whatever `get_first_in_waiting_list` returns is an unnotified
waitlist entry of the requested book and office whose queued timestamp is
least among all such entries (so with distinct timestamps it is the strictly
oldest), and a notified entry is never returned; when it returns nothing, no
unnotified entry for that key exists at all. -/
theorem get_first_fifo (db : DB) (title : String) (office : Option String) :
    (∀ e, get_first_in_waiting_list db title office = some e →
        e ∈ db.waiting_list ∧ e.book_title = title ∧ office = some e.office ∧
        e.notified = false ∧
        ∀ e' ∈ db.waiting_list, e'.book_title = title →
          office = some e'.office → e'.notified = false →
          e.added_at ≤ e'.added_at) ∧
    (get_first_in_waiting_list db title office = none →
        ∀ e' ∈ db.waiting_list, e'.book_title = title →
          office = some e'.office → e'.notified = false → False) := by
  constructor
  · intro e he
    unfold get_first_in_waiting_list at he
    have hmem := minByAddedAt_mem he
    rw [List.mem_filter] at hmem
    obtain ⟨hmem, hpred⟩ := hmem
    simp only [Bool.and_eq_true, beq_iff_eq, Bool.not_eq_true',
      Option.some.injEq] at hpred
    refine ⟨hmem, hpred.1.1, ?_, hpred.2, ?_⟩
    · rw [hpred.1.2]
    · intro e' he' ht ho hn
      refine minByAddedAt_le he e' ?_
      rw [List.mem_filter]
      refine ⟨he', ?_⟩
      simp [ht, hn]
      rw [ho]
  · intro hnone e' he' ht ho hn
    unfold get_first_in_waiting_list at hnone
    have hnil := minByAddedAt_eq_none hnone
    have : e' ∈ (db.waiting_list.filter fun e =>
        e.book_title == title && office == some e.office && !e.notified) := by
      rw [List.mem_filter]
      refine ⟨he', ?_⟩
      simp [ht, hn]
      rw [ho]
    rw [hnil] at this
    cases this

/-- Witness for C6: a three-entry waitlist for `книга z` where the oldest
entry is already notified and two are pending; the pending entry queued at
tick 200 is selected over the one queued at tick 300. -/
theorem get_first_fifo_witness :
    get_first_in_waiting_list
      { users := [], books := [], bookings := [],
        waiting_list :=
          [{ user_id := 4, book_title := "книга z", office := "Известия",
             added_at := 100, notified := true },
           { user_id := 6, book_title := "книга z", office := "Известия",
             added_at := 300, notified := false },
           { user_id := 5, book_title := "книга z", office := "Известия",
             added_at := 200, notified := false }] }
      "книга z" (some "Известия") =
      some { user_id := 5, book_title := "книга z", office := "Известия",
             added_at := 200, notified := false } ∧
    ({ user_id := 5, book_title := "книга z", office := "Известия",
       added_at := 200, notified := false } : WaitingEntry).notified = false :=
  ⟨rfl, ((get_first_fifo
    { users := [], books := [], bookings := [],
      waiting_list :=
        [{ user_id := 4, book_title := "книга z", office := "Известия",
           added_at := 100, notified := true },
         { user_id := 6, book_title := "книга z", office := "Известия",
           added_at := 300, notified := false },
         { user_id := 5, book_title := "книга z", office := "Известия",
           added_at := 200, notified := false }] }
    "книга z" (some "Известия")).1 _ rfl).2.2.2.1⟩

/-! ## C7: the notified flag advances only on successful delivery -/

/-- C7: when the waitlist selects an entry on a release, a failed outbound
delivery leaves the store untouched (the entry keeps `notified = false` and
is selected again at the next release), a missing user row likewise sends
nothing, and only a successful delivery reports `true` and sets the
`notified` flag of the selected entry's key. -/
theorem notify_marks_iff_delivered (db : DB) (title : String)
    (office : Option String) (e : WaitingEntry)
    (h : get_first_in_waiting_list db title office = some e) :
    notify_next_in_waiting_list db title office false = (db, false) ∧
    get_first_in_waiting_list
      (notify_next_in_waiting_list db title office false).1 title office =
      some e ∧
    (get_user_info db e.user_id = none →
      notify_next_in_waiting_list db title office true = (db, false)) ∧
    (∀ u, get_user_info db e.user_id = some u →
      (notify_next_in_waiting_list db title office true).2 = true ∧
      ∀ w ∈ (notify_next_in_waiting_list db title office true).1.waiting_list,
        w.user_id = e.user_id → w.book_title = title → office = some w.office →
        w.notified = true) := by
  have hfail : notify_next_in_waiting_list db title office false = (db, false) := by
    simp only [notify_next_in_waiting_list, h]
    rcases hu : get_user_info db e.user_id with - | u <;> simp [hu]
  refine ⟨hfail, by rw [hfail]; exact h, ?_, ?_⟩
  · intro hu
    simp only [notify_next_in_waiting_list, h, hu]
  · intro u hu
    simp only [notify_next_in_waiting_list, h, hu, if_true]
    refine ⟨trivial, ?_⟩
    intro w hw hwu hwt hwo
    rw [List.mem_map] at hw
    obtain ⟨a, _, rfl⟩ := hw
    by_cases hc : (a.user_id == e.user_id && a.book_title == title &&
        office == some a.office) = true
    · simp [hc]
    · rw [Bool.not_eq_true] at hc
      simp [hc] at hwu hwt hwo
      simp [hwu, hwt, hwo] at hc

/-- Witness for C7 on a one-entry waitlist with a registered user. -/
theorem notify_marks_iff_delivered_witness :
    get_first_in_waiting_list
      { users := [anaRow], books := [], bookings := [],
        waiting_list := [{ user_id := 1, book_title := "книга с",
                           office := "Stone Towers", added_at := 7,
                           notified := false }] }
      "книга с" (some "Stone Towers") =
      some { user_id := 1, book_title := "книга с", office := "Stone Towers",
             added_at := 7, notified := false } ∧
    notify_next_in_waiting_list
      { users := [anaRow], books := [], bookings := [],
        waiting_list := [{ user_id := 1, book_title := "книга с",
                           office := "Stone Towers", added_at := 7,
                           notified := false }] }
      "книга с" (some "Stone Towers") false =
      ({ users := [anaRow], books := [], bookings := [],
         waiting_list := [{ user_id := 1, book_title := "книга с",
                            office := "Stone Towers", added_at := 7,
                            notified := false }] }, false) :=
  ⟨rfl, (notify_marks_iff_delivered
    { users := [anaRow], books := [], bookings := [],
      waiting_list := [{ user_id := 1, book_title := "книга с",
                         office := "Stone Towers", added_at := 7,
                         notified := false }] }
    "книга с" (some "Stone Towers")
    { user_id := 1, book_title := "книга с", office := "Stone Towers",
      added_at := 7, notified := false } rfl).1⟩

/-! ## C3: the return flow guards and the completion flips -/

/-- The waitlist-notification side effect touches only the `waiting_list`
table; `users`, `books` and `bookings` pass through it unchanged. -/
theorem notify_preserves_core (db : DB) (title : String)
    (office : Option String) (d : Bool) :
    (notify_next_in_waiting_list db title office d).1.users = db.users ∧
    (notify_next_in_waiting_list db title office d).1.books = db.books ∧
    (notify_next_in_waiting_list db title office d).1.bookings = db.bookings := by
  unfold notify_next_in_waiting_list
  split
  · exact ⟨rfl, rfl, rfl⟩
  · split
    · exact ⟨rfl, rfl, rfl⟩
    · split
      · exact ⟨rfl, rfl, rfl⟩
      · exact ⟨rfl, rfl, rfl⟩

/-- C3: returning a title that is not the user's active reservation fails
(the handler answers the no-active-reservation error) and mutates nothing;
only on a match does the flow run `complete_booking`, which flips the
matching book rows to `'available'`, clears the user's booking columns and
status, and leaves no `'active'` row for that user and title in `bookings`. -/
theorem return_flow_guard (db : DB) (uid : Nat) (title : String) (d : Bool) :
    (∀ u, get_user_info db uid = some u → get_user_booking db uid = none →
        process_return_flow db uid title d = (db, .noActiveReservation)) ∧
    (∀ u row, get_user_info db uid = some u →
        get_user_booking db uid = some row → row.current_book ≠ some title →
        process_return_flow db uid title d = (db, .noActiveReservation)) ∧
    (∀ u row, get_user_info db uid = some u →
        get_user_booking db uid = some row → row.current_book = some title →
        process_return_flow db uid title d =
          (complete_booking db uid title u.office d, .completed) ∧
        (∀ b ∈ (complete_booking db uid title u.office d).books,
            sqlLower b.title = sqlLower title → u.office = some b.office →
            b.status = "available") ∧
        (∀ v ∈ (complete_booking db uid title u.office d).users,
            v.user_id = uid → v.current_book = none ∧ v.booking_start = none ∧
            v.booking_duration = none ∧ v.booking_end = none ∧
            v.status = "available") ∧
        (∀ bk ∈ (complete_booking db uid title u.office d).bookings,
            ¬(bk.user_id = uid ∧ bk.book_title = title ∧
              bk.status = "active"))) := by
  refine ⟨?_, ?_, ?_⟩
  · intro u hu hb
    simp [process_return_flow, hu, hb]
  · intro u row hu hb hne
    have hbe : (row.current_book == some title) = false := by
      rw [beq_eq_false_iff_ne]
      exact hne
    simp [process_return_flow, hu, hb, hbe]
  · intro u row hu hb heq
    have hbe : (row.current_book == some title) = true := by
      rw [beq_iff_eq]
      exact heq
    obtain ⟨hus, hbo, hbk⟩ :=
      notify_preserves_core
        ({ db with
            books := (update_book_status db title u.office "available").books,
            users := db.users.map fun v =>
              if v.user_id == uid then
                { v with current_book := none, booking_start := none,
                         booking_duration := none, booking_end := none,
                         status := "available" } else v,
            bookings := db.bookings.map fun b =>
              if b.user_id == uid && b.book_title == title &&
                  b.status == "active" then
                { b with status := "completed" } else b })
        title u.office d
    refine ⟨by simp [process_return_flow, hu, hb, hbe], ?_, ?_, ?_⟩
    · intro b hbm ht ho
      rw [show (complete_booking db uid title u.office d).books =
          (update_book_status db title u.office "available").books from hbo] at hbm
      simp only [update_book_status] at hbm
      rw [List.mem_map] at hbm
      obtain ⟨a, _, rfl⟩ := hbm
      by_cases hc : (sqlLower a.title == sqlLower title &&
          u.office == some a.office) = true
      · simp [hc]
      · rw [Bool.not_eq_true] at hc
        simp [hc] at ht ho
        simp [ht, ho] at hc
    · intro v hv hvid
      rw [show (complete_booking db uid title u.office d).users =
          db.users.map _ from hus] at hv
      rw [List.mem_map] at hv
      obtain ⟨a, _, rfl⟩ := hv
      by_cases hc : (a.user_id == uid) = true
      · simp [hc]
      · rw [Bool.not_eq_true] at hc
        simp [hc] at hvid ⊢
        simp [hvid] at hc
    · intro bk hbm
      rw [show (complete_booking db uid title u.office d).bookings =
          db.bookings.map _ from hbk] at hbm
      rw [List.mem_map] at hbm
      obtain ⟨a, _, rfl⟩ := hbm
      rintro ⟨h1, h2, h3⟩
      by_cases hc : (a.user_id == uid && a.book_title == title &&
          a.status == "active") = true
      · simp [hc] at h3
      · rw [Bool.not_eq_true] at hc
        simp [hc] at h1 h2 h3
        simp [h1, h2, h3] at hc

/-- Witness for C3 at `returnDb`: a mismatched title is rejected without
mutation, and the matching title completes. -/
theorem return_flow_guard_witness :
    process_return_flow returnDb 1 "книга в" true =
      (returnDb, .noActiveReservation) ∧
    (process_return_flow returnDb 1 "книга а" true).2 = .completed :=
  ⟨(return_flow_guard returnDb 1 "книга в" true).2.1
      { anaRow with
        current_book := some "книга а", booking_start := some 0,
        booking_duration := some "1 час", booking_end := some 3600,
        status := "booked" }
      { anaRow with
        current_book := some "книга а", booking_start := some 0,
        booking_duration := some "1 час", booking_end := some 3600,
        status := "booked" }
      rfl rfl (by decide),
   by rw [((return_flow_guard returnDb 1 "книга а" true).2.2
      { anaRow with
        current_book := some "книга а", booking_start := some 0,
        booking_duration := some "1 час", booking_end := some 3600,
        status := "booked" }
      { anaRow with
        current_book := some "книга а", booking_start := some 0,
        booking_duration := some "1 час", booking_end := some 3600,
        status := "booked" }
      rfl rfl rfl).1]⟩

/-! ## C10: the users-table booked/current_book consistency invariant -/

/-- C10: `register_user`, `create_booking` and `complete_booking` all
preserve `userConsistent` on every row of the `users` table, and
re-registering an existing user rewrites the table changing nothing but the
two name columns. -/
theorem user_row_consistency (db : DB)
    (hdb : ∀ u ∈ db.users, userConsistent u) :
    (∀ uid fn ln, ∀ u ∈ (register_user db uid fn ln).users, userConsistent u) ∧
    (∀ uid fn ln, db.users.any (fun u => u.user_id == uid) = true →
        (register_user db uid fn ln).users = db.users.map fun u =>
          if u.user_id == uid then
            { u with first_name := fn, last_name := ln } else u) ∧
    (∀ uid title office d now nid db2 bid et,
        create_booking db uid title office d now nid = some (db2, bid, et) →
        ∀ u ∈ db2.users, userConsistent u) ∧
    (∀ uid title office dv,
        ∀ u ∈ (complete_booking db uid title office dv).users,
          userConsistent u) := by
  refine ⟨?_, ?_, ?_, ?_⟩
  · intro uid fn ln u hu
    unfold register_user at hu
    split at hu
    · rw [List.mem_map] at hu
      obtain ⟨a, ha, rfl⟩ := hu
      by_cases hc : (a.user_id == uid) = true
      · simpa [userConsistent, hc] using hdb a ha
      · rw [Bool.not_eq_true] at hc
        simpa [hc] using hdb a ha
    · rcases List.mem_append.mp hu with hin | hnew
      · exact hdb u hin
      · rcases List.mem_singleton.mp hnew with rfl
        simp [userConsistent]
  · intro uid fn ln hany
    simp [register_user, hany]
  · intro uid title office d now nid db2 bid et hcr u hu
    unfold create_booking at hcr
    cases hoff : durationOffset d with
    | none => rw [hoff] at hcr; cases hcr
    | some off =>
      rw [hoff] at hcr
      injection hcr with hcr
      obtain ⟨rfl, -⟩ := Prod.mk.injEq .. ▸ Prod.ext_iff.mp hcr
      simp only [update_book_status, remove_from_waiting_list,
        List.mem_map] at hu
      obtain ⟨a, ha, rfl⟩ := hu
      by_cases hc : (a.user_id == uid) = true
      · simp [userConsistent, hc]
      · rw [Bool.not_eq_true] at hc
        simpa [hc] using hdb a ha
  · intro uid title office dv u hu
    obtain ⟨hus, -, -⟩ :=
      notify_preserves_core
        ({ db with
            books := (update_book_status db title office "available").books,
            users := db.users.map fun v =>
              if v.user_id == uid then
                { v with current_book := none, booking_start := none,
                         booking_duration := none, booking_end := none,
                         status := "available" } else v,
            bookings := db.bookings.map fun b =>
              if b.user_id == uid && b.book_title == title &&
                  b.status == "active" then
                { b with status := "completed" } else b })
        title office dv
    rw [show (complete_booking db uid title office dv).users =
        db.users.map _ from hus] at hu
    rw [List.mem_map] at hu
    obtain ⟨a, ha, rfl⟩ := hu
    by_cases hc : (a.user_id == uid) = true
    · simp [userConsistent, hc]
    · rw [Bool.not_eq_true] at hc
      simpa [hc] using hdb a ha

/-- Witness for C10: re-registering Ana in `raceDb` yields a row that still
satisfies the invariant (only the names changed). -/
theorem user_row_consistency_witness :
    userConsistent { anaRow with first_name := "Ира", last_name := "Лина" } :=
  (user_row_consistency raceDb (by decide)).1 1 "Ира" "Лина"
    { anaRow with first_name := "Ира", last_name := "Лина" } (by decide)

end LibraryBot
